import Mathlib

/-!
Shallow embedding of the `landsat-pystac` repository
(`src/landsatpystac/search.py`, `src/landsatpystac/stac.py`,
`src/landsatpystac/validators.py`) and verification of the
specification's claims about it.

Python values flowing through the library are modelled by the inductive
`JVal`; Python dictionaries are insertion-ordered association lists, and
dictionary assignment (`d[k] = v`, which updates an existing key in place
and appends a fresh key) is `dinsert`.  Python `float` payloads are
modelled exactly as rationals: the only float operation the embedded
fragment performs is equality comparison with the integer `100`, which is
exact for the values involved.  Fallible code returns `Except PyErr`.
-/

namespace LandsatPystac

/-- A Python value as it occurs in the library's JSON-shaped data. -/
inductive JVal where
  | null
  | bool (b : Bool)
  | int (n : Int)
  | float (q : Rat)
  | str (s : String)
  | arr (elems : List JVal)
  | obj (entries : List (String × JVal))

/-- The exception kinds raised by the embedded code.  The repository's own
exception classes live in `landsatpystac/errors.py`, which is not part of
the sources; following the spec (section 7) they are plain error kinds:
`typeError` / `valueError` are validation errors, `searchError` is the
library's rejection error, `runtimeError` the structural rendering error,
and `keyError` / `indexError` / `attributeError` are the CPython built-ins
the code can hit. -/
inductive PyErr where
  | typeError (msg : String)
  | valueError (msg : String)
  | keyError (key : String)
  | indexError (msg : String)
  | attributeError (msg : String)
  | searchError (msg : String)
  | runtimeError (msg : String)
deriving DecidableEq

/-- First-match lookup in an insertion-ordered dictionary (`d[k]` read). -/
def jlookup (kvs : List (String × JVal)) (k : String) : Option JVal :=
  match kvs with
  | [] => none
  | (k1, v) :: rest => if k1 = k then some v else jlookup rest k

/-- Python dictionary assignment `d[k] = v`: an existing key keeps its
position and gets the new value; a fresh key is appended at the end. -/
def dinsert (kvs : List (String × JVal)) (k : String) (v : JVal) :
    List (String × JVal) :=
  match kvs with
  | [] => [(k, v)]
  | (k1, v1) :: rest =>
    if k1 = k then (k, v) :: rest else (k1, v1) :: dinsert rest k v

/-- Python truthiness of a `JVal` (`if v:`). -/
def JVal.truthy : JVal → Bool
  | .null => false
  | .bool b => b
  | .int n => n != 0
  | .float q => q != 0
  | .str s => !s.isEmpty
  | .arr xs => !xs.isEmpty
  | .obj kvs => !kvs.isEmpty

/-- Python numeric equality `v == n` for an integer literal `n`:
`bool` is an `int` subclass and floats compare by value. -/
def JVal.eqNum : JVal → Int → Bool
  | .int m, n => m == n
  | .bool b, n => (if b then (1 : Int) else 0) == n
  | .float q, n => q == (n : Rat)
  | _, _ => false

/-- Python `isinstance(v, int)`: true for `int` and for `bool`
(a subclass of `int`). -/
def JVal.isIntLike : JVal → Bool
  | .int _ => true
  | .bool _ => true
  | _ => false

/-- Python `isinstance(v, str)`. -/
def JVal.isStr : JVal → Bool
  | .str _ => true
  | _ => false

/-- `validators.check_if_string`: passes strings through and raises the
library's TypeError otherwise. -/
def check_if_string (val : JVal) : Except PyErr Unit :=
  if val.isStr then .ok ()
  else .error (.typeError "Input value is not a string type.")

/-- `validators.check_if_int`: passes ints (and bools, per `isinstance`)
and raises the library's TypeError otherwise. -/
def check_if_int (val : JVal) : Except PyErr Unit :=
  if val.isIntLike then .ok ()
  else .error (.typeError "Input value is not an integer type.")

/-- Python `str.zfill(w)`: left-pad with zeros up to width `w`, inserting
the padding after a leading sign character. -/
def zfill (s : String) (w : Nat) : String :=
  if w ≤ s.length then s
  else
    let pad := String.mk (List.replicate (w - s.length) '0')
    if s.startsWith "+" || s.startsWith "-" then
      s.take 1 ++ pad ++ s.drop 1
    else pad ++ s

/-- The state of `search.JsonConstructor`, one field per attribute set in
`__init__`.  `params` and `_manual_json_params` are Python dicts. -/
structure JsonConstructor where
  params : List (String × JVal)
  _limit : Int
  _date_range : JVal
  _wrs_path : JVal
  _wrs_row : JVal
  _cloud_cover_max : JVal
  _cloud_cover_land_max : JVal
  _collection : JVal
  _platform : JVal
  _manual_json_params : List (String × JVal)
  _bbox : JVal
  _correction : JVal
  _sort_col : JVal
  _sort_order : JVal
  _id : JVal
  _scene_id : JVal

/-- `JsonConstructor.__init__`.  Note that the statement
`self.scene_id = None` goes through the `scene_id` property setter, so the
fresh builder's `params` dict already holds
`{'landsat:scene_id': {'eq': None}}`. -/
def JsonConstructor.init (limit : Int) : JsonConstructor :=
  { params := [("landsat:scene_id", .obj [("eq", .null)])]
    _limit := limit
    _date_range := .null
    _wrs_path := .null
    _wrs_row := .null
    _cloud_cover_max := .null
    _cloud_cover_land_max := .null
    _collection := .null
    _platform := .null
    _manual_json_params := []
    _bbox := .null
    _correction := .null
    _sort_col := .null
    _sort_order := .null
    _id := .null
    _scene_id := .null }

/-- The loop of `set_metadata` over the input dict.  Its first statement,
`self.json[k] = v`, reads the attribute `json`, which is assigned nowhere
on `JsonConstructor`, so the first iteration raises `AttributeError`
before `_manual_json_params` is touched; an empty input dict skips the
loop and succeeds. -/
def JsonConstructor.set_metadata (c : JsonConstructor)
    (metadata : List (String × JVal)) : Except PyErr JsonConstructor :=
  match metadata with
  | [] => .ok c
  | _ :: _ =>
    .error (.attributeError "JsonConstructor object has no attribute json")

/-- The `correction` property setter. -/
def JsonConstructor.correction_set (c : JsonConstructor) (val : JVal) :
    JsonConstructor :=
  { c with _correction := val
           params := dinsert c.params "landsat:correction"
             (.obj [("eq", val)]) }

/-- The `date_range` property setter. -/
def JsonConstructor.date_range_set (c : JsonConstructor) (val : JVal) :
    JsonConstructor :=
  { c with _date_range := val }

/-- The `bbox` property setter. -/
def JsonConstructor.bbox_set (c : JsonConstructor) (val : JVal) :
    JsonConstructor :=
  { c with _bbox := val }

/-- The `collection` property setter: only the two strings in the
allow-list are accepted (any other value fails the `in` test and raises
`SearchError`), and acceptance assigns `_collection` only. -/
def JsonConstructor.collection_set (c : JsonConstructor) (val : JVal) :
    Except PyErr JsonConstructor :=
  match val with
  | .str s =>
    if s = "landsat-c1l1" ∨ s = "landsat-c2l1" then
      .ok { c with _collection := .str s }
    else .error (.searchError "Collection not a valid collection.")
  | _ => .error (.searchError "Collection not a valid collection.")

/-- The `scene_id` property setter. -/
def JsonConstructor.scene_id_set (c : JsonConstructor) (val : JVal) :
    JsonConstructor :=
  { c with _scene_id := val
           params := dinsert c.params "landsat:scene_id"
             (.obj [("eq", val)]) }

/-- The `sort_col` property setter. -/
def JsonConstructor.sort_col_set (c : JsonConstructor) (val : JVal) :
    JsonConstructor :=
  { c with _sort_col := val }

/-- The `sort_order` property setter: `'desc'`, `'asc'` or `None` only. -/
def JsonConstructor.sort_order_set (c : JsonConstructor) (val : JVal) :
    Except PyErr JsonConstructor :=
  match val with
  | .str s =>
    if s = "desc" ∨ s = "asc" then .ok { c with _sort_order := .str s }
    else .error (.valueError "Unsupported sort order.")
  | .null => .ok { c with _sort_order := .null }
  | _ => .error (.valueError "Unsupported sort order.")

/-- The `platform` property setter: allow-list of nine platform strings
(note the source's `'LANDSAT-7'` with a hyphen), then store
`{'eq': val}` under `'platform'`. -/
def JsonConstructor.platform_set (c : JsonConstructor) (val : JVal) :
    Except PyErr JsonConstructor :=
  match val with
  | .str s =>
    if s ∈ ["LANDSAT_1", "LANDSAT_2", "LANDSAT_3", "LANDSAT_4",
            "LANDSAT_5", "LANDSAT_6", "LANDSAT-7", "LANDSAT_8",
            "LANDSAT_9"] then
      .ok { c with _platform := .str s
                   params := dinsert c.params "platform"
                     (.obj [("eq", .str s)]) }
    else .error (.searchError "Platform not a valid platform.")
  | _ => .error (.searchError "Platform not a valid platform.")

/-- The integer a Python int-like value (an `int` or a `bool`) stands for;
used for the numeric comparisons performed after `check_if_int`. -/
def JVal.toIntVal : JVal → Int
  | .int n => n
  | .bool b => if b then 1 else 0
  | _ => 0

/-- The `cloud_cover_max` property setter.  The whole body is guarded by
`if val != 100:`, so any value equal to 100 — including the float
`100.0` — is a silent no-op; otherwise the value must be an `int`
(`check_if_int`), then `val < 0 or val > 100` raises `ValueError`, and an
in-range value is stored as `{'lt': val}` under `'eo:cloud_cover'`. -/
def JsonConstructor.cloud_cover_max_set (c : JsonConstructor) (val : JVal) :
    Except PyErr JsonConstructor :=
  if val.eqNum 100 then .ok c
  else
    match check_if_int val with
    | .error e => .error e
    | .ok _ =>
      if val.toIntVal < 0 ∨ 100 < val.toIntVal then
        .error
          (.valueError
            "Cloud cover value is not an integer ranging from 0 and 100.")
      else
        .ok { c with
          _cloud_cover_max := .obj [("eo:cloud_cover", val)]
          params := dinsert c.params "eo:cloud_cover" (.obj [("lt", val)]) }

/-- The `cloud_cover_land_max` property setter.  Same `if val != 100:`
sentinel guard and `check_if_int` as `cloud_cover_max`, but — unlike it —
there is no range check: any non-sentinel int is stored as `{'lt': val}`
under `'landsat:cloud_cover_land'`. -/
def JsonConstructor.cloud_cover_land_max_set (c : JsonConstructor)
    (val : JVal) : Except PyErr JsonConstructor :=
  if val.eqNum 100 then .ok c
  else
    match check_if_int val with
    | .error e => .error e
    | .ok _ =>
      .ok { c with
        _cloud_cover_land_max := val
        params := dinsert c.params "landsat:cloud_cover_land"
          (.obj [("lt", val)]) }

/-- The zero-padded strings `str(x).zfill(3)` for `x in range(0, bound)`,
the valid-value lists of the WRS setters. -/
def wrsValidVals (bound : Nat) : List String :=
  (List.range bound).map (fun x => zfill (Nat.repr x) 3)

/-- The `wrs_path` property setter: `check_if_string`, zero-pad to three
characters, membership in `str(x).zfill(3)` for `x in range(0, 255)`,
then store `{'eq': padded}` under `'landsat:wrs_path'`. -/
def JsonConstructor.wrs_path_set (c : JsonConstructor) (val : JVal) :
    Except PyErr JsonConstructor :=
  match check_if_string val with
  | .error e => .error e
  | .ok _ =>
    match val with
    | .str s =>
      let v := zfill s 3
      if v ∈ wrsValidVals 255 then
        .ok { c with
          _wrs_path := .obj [("landsat:wrs_path", .str v)]
          params := dinsert c.params "landsat:wrs_path"
            (.obj [("eq", .str v)]) }
      else .error (.searchError "Input WRS path is invalid.")
    | _ => .error (.typeError "Input value is not a string type.")

/-- The `wrs_row` property setter: as `wrs_path` but with
`range(0, 248)` and key `'landsat:wrs_row'`. -/
def JsonConstructor.wrs_row_set (c : JsonConstructor) (val : JVal) :
    Except PyErr JsonConstructor :=
  match check_if_string val with
  | .error e => .error e
  | .ok _ =>
    match val with
    | .str s =>
      let v := zfill s 3
      if v ∈ wrsValidVals 248 then
        .ok { c with
          _wrs_row := .obj [("landsat:wrs_row", .str v)]
          params := dinsert c.params "landsat:wrs_row"
            (.obj [("eq", .str v)]) }
      else .error (.searchError "Input WRS row is invalid.")
    | _ => .error (.typeError "Input value is not a string type.")

/-- The `generate_json` loop over `self._manual_json_params`:
`for k, v in ...: if v: json_out['query'][k] = v`, acting on the inner
`query` dict. -/
def manualLoop (ps : List (String × JVal)) (q : List (String × JVal)) :
    List (String × JVal) :=
  match ps with
  | [] => q
  | (k, v) :: rest =>
    manualLoop rest (if v.truthy then dinsert q k v else q)

/-- The `continue` test of the `generate_json` params loop:
`isinstance(v, dict) and len(v) == 1 and list(v.values())[0] is None`. -/
def isSkipEntry : JVal → Bool
  | .obj [(_, .null)] => true
  | _ => false

/-- The `raise` test of the `generate_json` params loop:
`isinstance(v, dict) and len(v) > 1`. -/
def isMultiEntry : JVal → Bool
  | .obj kvs => 1 < kvs.length
  | _ => false

/-- The `generate_json` loop over `self.params`: a truthy value that is a
dict with a single `None` entry is skipped (`continue`), a dict with more
than one entry raises `RuntimeError('Unexpected nested data.')`, and every
other truthy value is written into the `query` dict. -/
def queryLoop (ps : List (String × JVal)) (q : List (String × JVal)) :
    Except PyErr (List (String × JVal)) :=
  match ps with
  | [] => .ok q
  | (k, v) :: rest =>
    if v.truthy then
      if isSkipEntry v then queryLoop rest q
      else if isMultiEntry v then
        .error (.runtimeError "Unexpected nested data.")
      else queryLoop rest (dinsert q k v)
    else queryLoop rest q

/-- The head of the rendered document:
`json_out = {'limit': self._limit}` plus the conditional `bbox` and
`time` entries. -/
def JsonConstructor.baseDoc (c : JsonConstructor) : List (String × JVal) :=
  let json_out : List (String × JVal) := [("limit", .int c._limit)]
  let json_out :=
    if c._bbox.truthy then dinsert json_out "bbox" c._bbox else json_out
  if c._date_range.truthy then dinsert json_out "time" c._date_range
  else json_out

/-- The contents of the inner `query` dict after both `generate_json`
loops: manual parameters are written first, typed parameters afterwards
(so a typed entry overwrites a manual entry of the same key). -/
def JsonConstructor.queryStage (c : JsonConstructor) :
    Except PyErr (List (String × JVal)) :=
  queryLoop c.params
    (if c._manual_json_params.isEmpty then []
     else manualLoop c._manual_json_params [])

/-- The tail of `generate_json`: install the `query` dict and append the
optional `sort` entry (`[{'field': col}]`, with `'direction'` added when a
sort order is set). -/
def JsonConstructor.finishDoc (c : JsonConstructor)
    (q : List (String × JVal)) : List (String × JVal) :=
  let json_out := dinsert c.baseDoc "query" (.obj q)
  if c._sort_col.truthy then
    dinsert json_out "sort"
      (.arr [if c._sort_order.truthy then
               .obj [("field", c._sort_col), ("direction", c._sort_order)]
             else .obj [("field", c._sort_col)]])
  else json_out

/-- `JsonConstructor.generate_json`.  The method only reads builder
state — it assigns no attribute of `self` — so the embedding threads the
(unchanged) builder through explicitly and returns it alongside the
document, making the absence of side effects a provable statement. -/
def JsonConstructor.generate_json (c : JsonConstructor) :
    Except PyErr (JVal × JsonConstructor) :=
  match c.queryStage with
  | .error e => .error e
  | .ok q => .ok (.obj (c.finishDoc q), c)

/-- The `query` member of a rendered document. -/
def queryOf (doc : JVal) : Option JVal :=
  match doc with
  | .obj kvs => jlookup kvs "query"
  | _ => none

/-- Python subscript `container[k]` for a string key `k`: a dict either
yields the stored value or raises `KeyError`; every other container kind
raises `TypeError` on a string subscript. -/
def pyGetItemStr (container : JVal) (k : String) : Except PyErr JVal :=
  match container with
  | .obj kvs =>
    match jlookup kvs k with
    | some v => .ok v
    | none => .error (.keyError k)
  | _ => .error (.typeError "value is not subscriptable by a string key")

/-- Python substring test `needle in hay`. -/
def containsSub (hay needle : String) : Bool :=
  decide (needle.toList <:+: hay.toList)

/-- Python membership `k in container` for a string `k`: key membership
for dicts, substring test for strings, element equality for lists,
`TypeError` for non-iterables. -/
def pyContainsStr (container : JVal) (k : String) : Except PyErr Bool :=
  match container with
  | .obj kvs => .ok (jlookup kvs k).isSome
  | .str s => .ok (containsSub s k)
  | .arr xs =>
    .ok (xs.any fun x => match x with | .str t => t == k | _ => false)
  | _ => .error (.typeError "argument is not iterable")

/-- Python subscript `container[0]`.  Dicts in this embedding carry string
keys only, so a dict subscripted with `0` raises `KeyError`. -/
def pyIndex0 (v : JVal) : Except PyErr JVal :=
  match v with
  | .arr (x :: _) => .ok x
  | .arr [] => .error (.indexError "list index out of range")
  | .str s =>
    match s.toList with
    | ch :: _ => .ok (.str (String.mk [ch]))
    | [] => .error (.indexError "string index out of range")
  | .obj _ => .error (.keyError "0")
  | _ => .error (.typeError "value is not subscriptable")

/-- The rational a Python numeric value stands for, if it is numeric. -/
def JVal.asNum : JVal → Option Rat
  | .int n => some n
  | .bool b => some (if b then 1 else 0)
  | .float q => some q
  | _ => none

/-- Python `==` as used for dictionary keys in the embedded fragment:
numbers compare by value across `int` / `bool` / `float`, strings and
`None` compare to themselves. -/
def keyEq (a b : JVal) : Bool :=
  match a.asNum, b.asNum with
  | some x, some y => x == y
  | _, _ =>
    match a, b with
    | .str s, .str t => s == t
    | .null, .null => true
    | _, _ => false

/-- Whether a value may be used as a Python dictionary key (lists and
dicts are unhashable). -/
def JVal.hashable : JVal → Bool
  | .arr _ => false
  | .obj _ => false
  | _ => true

/-- Dictionary assignment for dictionaries keyed by arbitrary (hashable)
Python values, as in `band_names[band_num] = ...`. -/
def jdinsert (kvs : List (JVal × JVal)) (k v : JVal) : List (JVal × JVal) :=
  match kvs with
  | [] => [(k, v)]
  | (k1, v1) :: rest =>
    if keyEq k1 k then (k, v) :: rest else (k1, v1) :: jdinsert rest k v

/-- The state of `stac.Scene`, one field per attribute set in
`__init__` / `load_assets`; `_feature` is the raw feature. -/
structure Scene where
  _feature : JVal
  description : JVal
  id : JVal
  bbox : JVal
  geometry : JVal
  timestamp : JVal
  cloud_cover : JVal
  sun_azimuth : JVal
  sun_elevation : JVal
  platform : JVal
  instruments : JVal
  off_nadir : JVal
  cloud_cover_land : JVal
  wrs_type : JVal
  wrs_row : JVal
  wrs_path : JVal
  scene_id : JVal
  collection_category : JVal
  collection_number : JVal
  correction : JVal
  epsg : JVal
  shape : JVal
  coeff_list : List JVal
  coeff_names : List (String × JVal)
  qa_list : List JVal
  qa_names : List JVal
  band_list : List JVal
  band_names : List (JVal × JVal)
  s3_tiff_paths : List (JVal × JVal)
  s3_metadata_paths : List (String × JVal)
  s3_qa_paths : List (String × JVal)
  s3_coeff_paths : List (String × JVal)
  landsatlook_tiff_paths : List (JVal × JVal)
  landsatlook_metadata_paths : List (String × JVal)
  landsatlook_qa_paths : List (String × JVal)
  landsatlook_coeff_paths : List (String × JVal)
  thumbnail : JVal
  metadata_txt_path : JVal
  metadata_xml_path : JVal
  metadata_json_path : JVal

/-- `Scene._get_property`: read `feature['properties'][attribute]`,
catching `KeyError` (and only `KeyError`) into the missing-value marker
`None`; any `TypeError` from a non-dict propagates as in the source. -/
def Scene._get_property (feature : JVal) (attr : String) :
    Except PyErr JVal :=
  match pyGetItemStr feature "properties" with
  | .ok props =>
    match pyGetItemStr props attr with
    | .ok v => .ok v
    | .error (.keyError _) => .ok .null
    | .error e => .error e
  | .error (.keyError _) => .ok .null
  | .error e => .error e

/-- The chained subscript `asset['alternate']['s3']['href']`. -/
def assetS3Href (asset : JVal) : Except PyErr JVal :=
  match pyGetItemStr asset "alternate" with
  | .error e => .error e
  | .ok alt =>
    match pyGetItemStr alt "s3" with
    | .error e => .error e
    | .ok s3v => pyGetItemStr s3v "href"

/-- The `if asset in coeff_files:` block of the `load_assets` loop body.
The source mutates the scene field by field and a failed lookup raises out
of `__init__`, leaving the partially mutated object unreachable; each
stage of the embedding performs the same lookups in source order and
applies its updates only when every lookup succeeds, which is
observationally the same. -/
def coeffStage (s : Scene) (name : String) (asset : JVal) :
    Except PyErr Scene :=
  if name ∈ ["VAA", "VZA", "SAA", "SZA"] then
    match pyGetItemStr asset "title" with
    | .error e => .error e
    | .ok title =>
      match assetS3Href asset with
      | .error e => .error e
      | .ok s3href =>
        match pyGetItemStr asset "href" with
        | .error e => .error e
        | .ok href =>
          .ok { s with
            coeff_list := s.coeff_list ++ [asset]
            coeff_names := dinsert s.coeff_names name title
            s3_coeff_paths := dinsert s.s3_coeff_paths name s3href
            landsatlook_coeff_paths :=
              dinsert s.landsatlook_coeff_paths name href }
  else .ok s

/-- The `if asset in mtl_files:` block of the `load_assets` loop body. -/
def mtlStage (s : Scene) (name : String) (asset : JVal) :
    Except PyErr Scene :=
  if name ∈ ["MTL.txt", "MTL.json", "MTL.xml", "ANG.txt"] then
    match assetS3Href asset with
    | .error e => .error e
    | .ok s3href =>
      match pyGetItemStr asset "href" with
      | .error e => .error e
      | .ok href =>
        .ok { s with
          s3_metadata_paths := dinsert s.s3_metadata_paths name s3href
          landsatlook_metadata_paths :=
            dinsert s.landsatlook_metadata_paths name href }
  else .ok s

/-- The `if 'qa_' in asset:` block of the `load_assets` loop body. -/
def qaStage (s : Scene) (name : String) (asset : JVal) :
    Except PyErr Scene :=
  if containsSub name "qa_" then
    match pyGetItemStr asset "title" with
    | .error e => .error e
    | .ok title =>
      match pyGetItemStr asset "href" with
      | .error e => .error e
      | .ok href =>
        match assetS3Href asset with
        | .error e => .error e
        | .ok s3href =>
          .ok { s with
            qa_list := s.qa_list ++ [asset]
            qa_names := s.qa_names ++ [title]
            landsatlook_qa_paths :=
              dinsert s.landsatlook_qa_paths name href
            s3_qa_paths := dinsert s.s3_qa_paths name s3href }
  else .ok s

/-- The `if asset == 'thumbnail':` block of the `load_assets` loop body. -/
def thumbStage (s : Scene) (name : String) (asset : JVal) :
    Except PyErr Scene :=
  if name = "thumbnail" then
    match pyGetItemStr asset "href" with
    | .error e => .error e
    | .ok href => .ok { s with thumbnail := href }
  else .ok s

/-- The `if 'eo:bands' in ...:` block of the `load_assets` loop body:
take the first entry of the band list, key the band maps by the band's
`name` (an unhashable key would raise `TypeError` at the dict
assignment). -/
def bandStage (s : Scene) (_name : String) (asset : JVal) :
    Except PyErr Scene :=
  match pyContainsStr asset "eo:bands" with
  | .error e => .error e
  | .ok false => .ok s
  | .ok true =>
    match pyGetItemStr asset "eo:bands" with
    | .error e => .error e
    | .ok bands =>
      match pyIndex0 bands with
      | .error e => .error e
      | .ok data =>
        match pyGetItemStr data "name" with
        | .error e => .error e
        | .ok band_num =>
          match pyGetItemStr data "common_name" with
          | .error e => .error e
          | .ok cname =>
            if band_num.hashable then
              match assetS3Href asset with
              | .error e => .error e
              | .ok s3href =>
                match pyGetItemStr asset "href" with
                | .error e => .error e
                | .ok href =>
                  .ok { s with
                    band_list := s.band_list ++ [data]
                    band_names := jdinsert s.band_names band_num cname
                    s3_tiff_paths :=
                      jdinsert s.s3_tiff_paths band_num s3href
                    landsatlook_tiff_paths :=
                      jdinsert s.landsatlook_tiff_paths band_num href }
            else
              .error (.typeError "unhashable type used as a dictionary key")

/-- One iteration of the `load_assets` loop, for the asset named `name`
with value `asset`: the five blocks in source order. -/
def processAsset (s : Scene) (name : String) (asset : JVal) :
    Except PyErr Scene := do
  let s ← coeffStage s name asset
  let s ← mtlStage s name asset
  let s ← qaStage s name asset
  let s ← thumbStage s name asset
  bandStage s name asset

/-- The `load_assets` loop over the entries of the assets dict, in
insertion order. -/
def loadAssetsLoop (entries : List (String × JVal)) (s : Scene) :
    Except PyErr Scene :=
  match entries with
  | [] => .ok s
  | (name, asset) :: rest => do
    let s' ← processAsset s name asset
    loadAssetsLoop rest s'

/-- `Scene.load_assets`: iterate `feature['assets']`.  A dict iterates
its keys; iterating an empty list or empty string performs no work; any
other container aborts with `TypeError` once the loop body subscripts
`feature['assets']` with the iterated element. -/
def Scene.load_assets (feature : JVal) (s : Scene) : Except PyErr Scene := do
  let assets ← pyGetItemStr feature "assets"
  match assets with
  | .obj entries => loadAssetsLoop entries s
  | .arr [] => .ok s
  | .str "" => .ok s
  | _ => .error (.typeError "assets container is not an iterable mapping")

/-- `Scene.__init__`: the mandatory subscripts (`description`, `id`,
`bbox`, `geometry`), the `_get_property` reads, the literal defaults, and
finally `load_assets`. -/
def sceneOf (feature : JVal) : Except PyErr Scene := do
  let description ← pyGetItemStr feature "description"
  let idv ← pyGetItemStr feature "id"
  let bboxv ← pyGetItemStr feature "bbox"
  let geometry ← pyGetItemStr feature "geometry"
  let timestamp ← Scene._get_property feature "datetime"
  let cloud_cover ← Scene._get_property feature "eo:cloud_cover"
  let sun_azimuth ← Scene._get_property feature "view:sun_azimuth"
  let sun_elevation ← Scene._get_property feature "view:sun_elevation"
  let platform ← Scene._get_property feature "platform"
  let instruments ← Scene._get_property feature "instruments"
  let off_nadir ← Scene._get_property feature "view:off_nadir"
  let cloud_cover_land ←
    Scene._get_property feature "landsat:cloud_cover_land"
  let wrs_type ← Scene._get_property feature "landsat:wrs_type"
  let wrs_row ← Scene._get_property feature "landsat:wrs_row"
  let wrs_path ← Scene._get_property feature "landsat:wrs_path"
  let scene_id ← Scene._get_property feature "landsat:scene_id"
  let collection_category ←
    Scene._get_property feature "landsat:collection_category"
  let collection_number ←
    Scene._get_property feature "landsat:collection_number"
  let correction ← Scene._get_property feature "landsat:correction"
  let epsg ← Scene._get_property feature "proj:epsg"
  let shape ← Scene._get_property feature "proj:shape"
  let s : Scene :=
    { _feature := feature
      description := description
      id := idv
      bbox := bboxv
      geometry := geometry
      timestamp := timestamp
      cloud_cover := cloud_cover
      sun_azimuth := sun_azimuth
      sun_elevation := sun_elevation
      platform := platform
      instruments := instruments
      off_nadir := off_nadir
      cloud_cover_land := cloud_cover_land
      wrs_type := wrs_type
      wrs_row := wrs_row
      wrs_path := wrs_path
      scene_id := scene_id
      collection_category := collection_category
      collection_number := collection_number
      correction := correction
      epsg := epsg
      shape := shape
      coeff_list := []
      coeff_names := []
      qa_list := []
      qa_names := []
      band_list := []
      band_names := []
      s3_tiff_paths := []
      s3_metadata_paths := []
      s3_qa_paths := []
      s3_coeff_paths := []
      landsatlook_tiff_paths := []
      landsatlook_metadata_paths := []
      landsatlook_qa_paths := []
      landsatlook_coeff_paths := []
      thumbnail := .null
      metadata_txt_path := .null
      metadata_xml_path := .null
      metadata_json_path := .null }
  Scene.load_assets feature s

/-- The `STACResult.__init__` loop `for item in result['features']:
self.features.append(Scene(item))`, preserving source order. -/
def scenesOfList (items : List JVal) : Except PyErr (List Scene) :=
  match items with
  | [] => .ok []
  | f :: rest => do
    let s ← sceneOf f
    let ss ← scenesOfList rest
    pure (s :: ss)

/-- The state of `stac.STACResult`. -/
structure STACResult where
  result : JVal
  features : List Scene
  _n : Nat
  meta : JVal
  ids : List JVal
  scene_ids : List JVal
  cloud_cover : List JVal
  cloud_cover_land : List JVal

/-- `STACResult.__init__`: parse each entry of `result['features']` into
a `Scene`, read `result['meta']`, and precompute the aggregate lists. -/
def STACResult.init (result : JVal) : Except PyErr STACResult :=
  match pyGetItemStr result "features" with
  | .error e => .error e
  | .ok (.arr items) =>
    match scenesOfList items with
    | .error e => .error e
    | .ok scenes =>
      match pyGetItemStr result "meta" with
      | .error e => .error e
      | .ok meta =>
        .ok { result := result
              features := scenes
              _n := 0
              meta := meta
              ids := scenes.map Scene.id
              scene_ids := scenes.map Scene.scene_id
              cloud_cover := scenes.map Scene.cloud_cover
              cloud_cover_land := scenes.map Scene.cloud_cover_land }
  | .ok _ => .error (.typeError "features container is not iterable")

/-- The outcome of one `__next__` call: either `StopIteration` or a
yielded scene, together with the iterator state afterwards. -/
inductive IterStep where
  | stop (r : STACResult)
  | yield (s : Scene) (r : STACResult)

/-- `STACResult.__next__`, verbatim: inside the bounds check, `_n` is
incremented only when `_n + 1 != len(features)` (otherwise
`StopIteration` is raised), and the element returned is
`features[_n]` with the already incremented `_n`. -/
def STACResult.next (r : STACResult) : IterStep :=
  if r._n < r.features.length then
    if r._n + 1 ≠ r.features.length then
      let r' := { r with _n := r._n + 1 }
      match r'.features.get? r'._n with
      | some s => .yield s r'
      | none => .stop r'
    else .stop r
  else .stop r

/-- `STACResult.__iter__`: reset `_n` to `0` and return `self`. -/
def STACResult.iter (r : STACResult) : STACResult := { r with _n := 0 }

/-- Driver of a Python `for` loop over the iterator: call `next` until
`StopIteration`, collecting the yielded scenes in order.  The fuel is an
upper bound on the number of calls; `next` either stops or increments
`_n`, so `features.length + 1` calls always suffice. -/
def forLoopGo : Nat → STACResult → List Scene → List Scene × STACResult
  | 0, r, acc => (acc.reverse, r)
  | fuel + 1, r, acc =>
    match r.next with
    | .stop r' => (acc.reverse, r')
    | .yield s r' => forLoopGo fuel r' (s :: acc)

/-- A full Python `for s in resultset:` traversal: `__iter__` then
repeated `__next__`. -/
def STACResult.forLoop (r : STACResult) : List Scene × STACResult :=
  forLoopGo (r.features.length + 1) r.iter []

/-- The effective position of Python list index `i` in a list of length
`len`: negative indices count from the end. -/
def pyIdx (len : Nat) (i : Int) : Int := if i < 0 then i + len else i

/-- Python list subscript with an integer index: negative indices count
from the end, out-of-range indices raise `IndexError`. -/
def pyListGet {α : Type} (xs : List α) (i : Int) : Except PyErr α :=
  if 0 ≤ pyIdx xs.length i then
    match xs.get? (pyIdx xs.length i).toNat with
    | some a => .ok a
    | none => .error (.indexError "list index out of range")
  else .error (.indexError "list index out of range")

/-- `STACResult.__getitem__`: subscript into `self.features`. -/
def STACResult.getitem (r : STACResult) (i : Int) : Except PyErr Scene :=
  pyListGet r.features i

/-- `STACResult.__len__`: the number of parsed scenes. -/
def STACResult.len (r : STACResult) : Nat := r.features.length

/-! ### Concrete states used by the code-bug exhibits and witnesses -/

/-- The builder after `platform = 'LANDSAT_8'` on a fresh
`JsonConstructor(10)`. -/
def c1typed : JsonConstructor :=
  { JsonConstructor.init 10 with
    _platform := .str "LANDSAT_8"
    params := [("landsat:scene_id", .obj [("eq", .null)]),
               ("platform", .obj [("eq", .str "LANDSAT_8")])] }

/-- `c1typed` with a manual override for the key `'platform'` placed in
`_manual_json_params` — the state `set_metadata` is documented to
produce (its actual first statement crashes before writing it). -/
def c1state : JsonConstructor :=
  { c1typed with
    _manual_json_params := [("platform", .obj [("eq", .str "LANDSAT_9")])] }

/-- A minimal feature record with identifier `i`. -/
def miniFeat (i : String) : JVal :=
  .obj [("description", .str "d"), ("id", .str i), ("bbox", .arr []),
        ("geometry", .null), ("properties", .obj []), ("assets", .obj [])]

/-- A response whose `features` array has two entries, `"a"` then
`"b"`. -/
def c2resp : JVal :=
  .obj [("features", .arr [miniFeat "a", miniFeat "b"]),
        ("meta", .obj [])]

/-- The `STACResult` built from `c2resp`. -/
def c2r : STACResult :=
  match STACResult.init c2resp with
  | .ok r => r
  | .error _ => ⟨.null, [], 0, .null, [], [], [], []⟩

/-- A response whose `features` array has the single entry
`miniFeat "a"`. -/
def c7resp : JVal :=
  .obj [("features", .arr [miniFeat "a"]),
        ("meta", .obj [("found", .int 1)])]

/-- The `STACResult` built from `c7resp`. -/
def c7r : STACResult :=
  match STACResult.init c7resp with
  | .ok r => r
  | .error _ => ⟨.null, [], 0, .null, [], [], [], []⟩

/-- A feature whose `properties` mapping is present but lacks
`view:sun_azimuth`. -/
def c8feat : JVal :=
  .obj [("description", .str "d"), ("id", .str "x"), ("bbox", .null),
        ("geometry", .null),
        ("properties", .obj [("platform", .str "LANDSAT_8")]),
        ("assets", .obj [])]

/-! ### Dictionary lemmas -/

/-- The keys of an embedded dictionary, in insertion order. -/
def keys (ps : List (String × JVal)) : List String := ps.map Prod.fst

@[simp] theorem keys_nil : keys [] = [] := rfl

@[simp] theorem keys_cons (k : String) (v : JVal) (tl : List (String × JVal)) :
    keys ((k, v) :: tl) = k :: keys tl := rfl

theorem jlookup_dinsert_self (ps : List (String × JVal)) (k : String)
    (v : JVal) : jlookup (dinsert ps k v) k = some v := by
  induction ps with
  | nil => simp [dinsert, jlookup]
  | cons hd tl ih =>
    obtain ⟨k1, v1⟩ := hd
    by_cases h : k1 = k <;> simp [dinsert, jlookup, h, ih]

theorem jlookup_dinsert_ne (ps : List (String × JVal)) (k k' : String)
    (v : JVal) (h : k' ≠ k) :
    jlookup (dinsert ps k v) k' = jlookup ps k' := by
  induction ps with
  | nil => simp [dinsert, jlookup, Ne.symm h]
  | cons hd tl ih =>
    obtain ⟨k1, v1⟩ := hd
    by_cases h1 : k1 = k
    · subst h1
      simp [dinsert, jlookup, Ne.symm h]
    · by_cases h2 : k1 = k' <;> simp [dinsert, jlookup, h, h1, h2, ih]

theorem jlookup_eq_none (ps : List (String × JVal)) (k : String)
    (h : k ∉ keys ps) : jlookup ps k = none := by
  induction ps with
  | nil => rfl
  | cons hd tl ih =>
    obtain ⟨k1, v1⟩ := hd
    rw [keys_cons, List.mem_cons] at h
    push_neg at h
    rw [jlookup, if_neg (Ne.symm h.1)]
    exact ih h.2

theorem mem_keys_dinsert (ps : List (String × JVal)) (k : String) (v : JVal)
    (k' : String) (h : k' ∈ keys (dinsert ps k v)) :
    k' ∈ keys ps ∨ k' = k := by
  induction ps with
  | nil => simpa [dinsert] using h
  | cons hd tl ih =>
    obtain ⟨k1, v1⟩ := hd
    by_cases h1 : k1 = k
    · subst h1
      rw [dinsert, if_pos rfl, keys_cons, List.mem_cons] at h
      rcases h with h | h
      · right; exact h
      · left; rw [keys_cons, List.mem_cons]; right; exact h
    · rw [dinsert, if_neg h1, keys_cons, List.mem_cons] at h
      rcases h with h | h
      · left; rw [keys_cons, List.mem_cons]; left; exact h
      · rcases ih h with h2 | h2
        · left; rw [keys_cons, List.mem_cons]; right; exact h2
        · right; exact h2

theorem keys_nodup_dinsert (ps : List (String × JVal)) (k : String)
    (v : JVal) (h : (keys ps).Nodup) : (keys (dinsert ps k v)).Nodup := by
  induction ps with
  | nil => simp [dinsert]
  | cons hd tl ih =>
    obtain ⟨k1, v1⟩ := hd
    rw [keys_cons, List.nodup_cons] at h
    by_cases h1 : k1 = k
    · subst h1
      rw [dinsert, if_pos rfl, keys_cons, List.nodup_cons]
      exact h
    · rw [dinsert, if_neg h1, keys_cons, List.nodup_cons]
      refine ⟨fun hmem => ?_, ih h.2⟩
      rcases mem_keys_dinsert tl k v k1 hmem with h2 | h2
      · exact h.1 h2
      · exact h1 h2

theorem manualLoop_lookup_not_mem (ps : List (String × JVal)) (k : String)
    (h : k ∉ keys ps) :
    ∀ q, jlookup (manualLoop ps q) k = jlookup q k := by
  induction ps with
  | nil => intro q; rfl
  | cons hd tl ih =>
    obtain ⟨k1, v1⟩ := hd
    intro q
    rw [keys_cons, List.mem_cons] at h
    push_neg at h
    rw [manualLoop, ih h.2]
    by_cases ht : v1.truthy <;>
      simp [ht, jlookup_dinsert_ne q k1 k v1 h.1]

/-! ### `queryLoop` lemmas -/

theorem isSkipEntry_iff (v : JVal) :
    isSkipEntry v = true ↔ ∃ op, v = .obj [(op, .null)] := by
  cases v with
  | obj kvs =>
    rcases kvs with _ | ⟨⟨ka, va⟩, _ | ⟨b, rest⟩⟩
    · simp [isSkipEntry]
    · cases va <;> simp [isSkipEntry]
    · simp [isSkipEntry]
  | null => simp [isSkipEntry]
  | bool b => simp [isSkipEntry]
  | int n => simp [isSkipEntry]
  | float q => simp [isSkipEntry]
  | str s => simp [isSkipEntry]
  | arr xs => simp [isSkipEntry]

theorem queryLoop_lookup_of_none (ps : List (String × JVal)) :
    ∀ (k : String), jlookup ps k = none →
    ∀ q res, queryLoop ps q = .ok res → jlookup res k = jlookup q k := by
  induction ps with
  | nil =>
    intro k _ q res hq
    rw [queryLoop] at hq
    injection hq with h
    rw [h]
  | cons hd tl ih =>
    obtain ⟨k1, v1⟩ := hd
    intro k h q res hq
    have hk : k1 ≠ k := by
      intro e
      rw [jlookup, if_pos e] at h
      cases h
    have htl : jlookup tl k = none := by rwa [jlookup, if_neg hk] at h
    rw [queryLoop] at hq
    by_cases ht : v1.truthy
    · rw [if_pos ht] at hq
      by_cases hs : isSkipEntry v1
      · rw [if_pos hs] at hq
        exact ih k htl q res hq
      · rw [if_neg hs] at hq
        by_cases hm : isMultiEntry v1
        · rw [if_pos hm] at hq; cases hq
        · rw [if_neg hm] at hq
          rw [ih k htl _ res hq,
            jlookup_dinsert_ne q k1 k v1 (Ne.symm hk)]
    · rw [if_neg ht] at hq
      exact ih k htl q res hq

theorem queryLoop_lookup_found (ps : List (String × JVal)) :
    ∀ (k : String) (v : JVal), (keys ps).Nodup → jlookup ps k = some v →
    v.truthy = true → isSkipEntry v = false → isMultiEntry v = false →
    ∀ q res, queryLoop ps q = .ok res → jlookup res k = some v := by
  induction ps with
  | nil => intro k v _ hfind _ _ _ q res _; cases hfind
  | cons hd tl ih =>
    obtain ⟨k1, v1⟩ := hd
    intro k v hnd hfind htr hskip hmulti q res hq
    rw [keys_cons, List.nodup_cons] at hnd
    rw [queryLoop] at hq
    by_cases hk : k1 = k
    · subst hk
      rw [jlookup, if_pos rfl] at hfind
      injection hfind with hv
      subst hv
      rw [if_pos htr, if_neg (by simp [hskip]), if_neg (by simp [hmulti])]
        at hq
      have htl : jlookup tl k1 = none := jlookup_eq_none tl k1 hnd.1
      rw [queryLoop_lookup_of_none tl k1 htl _ res hq,
        jlookup_dinsert_self]
    · rw [jlookup, if_neg hk] at hfind
      by_cases ht : v1.truthy
      · rw [if_pos ht] at hq
        by_cases hs : isSkipEntry v1
        · rw [if_pos hs] at hq
          exact ih k v hnd.2 hfind htr hskip hmulti q res hq
        · rw [if_neg hs] at hq
          by_cases hm : isMultiEntry v1
          · rw [if_pos hm] at hq; cases hq
          · rw [if_neg hm] at hq
            exact ih k v hnd.2 hfind htr hskip hmulti _ res hq
      · rw [if_neg ht] at hq
        exact ih k v hnd.2 hfind htr hskip hmulti q res hq

theorem queryLoop_lookup_skip (ps : List (String × JVal)) :
    ∀ (k : String) (v : JVal), (keys ps).Nodup → jlookup ps k = some v →
    isSkipEntry v = true →
    ∀ q res, queryLoop ps q = .ok res → jlookup res k = jlookup q k := by
  induction ps with
  | nil => intro k v _ hfind _ q res _; cases hfind
  | cons hd tl ih =>
    obtain ⟨k1, v1⟩ := hd
    intro k v hnd hfind hskip q res hq
    rw [keys_cons, List.nodup_cons] at hnd
    rw [queryLoop] at hq
    by_cases hk : k1 = k
    · subst hk
      rw [jlookup, if_pos rfl] at hfind
      injection hfind with hv
      subst hv
      have htr : v1.truthy = true := by
        rcases (isSkipEntry_iff v1).mp hskip with ⟨op, rfl⟩
        rfl
      rw [if_pos htr, if_pos hskip] at hq
      have htl : jlookup tl k1 = none := jlookup_eq_none tl k1 hnd.1
      exact queryLoop_lookup_of_none tl k1 htl q res hq
    · rw [jlookup, if_neg hk] at hfind
      by_cases ht : v1.truthy
      · rw [if_pos ht] at hq
        by_cases hs : isSkipEntry v1
        · rw [if_pos hs] at hq
          exact ih k v hnd.2 hfind hskip q res hq
        · rw [if_neg hs] at hq
          by_cases hm : isMultiEntry v1
          · rw [if_pos hm] at hq; cases hq
          · rw [if_neg hm] at hq
            rw [ih k v hnd.2 hfind hskip _ res hq,
              jlookup_dinsert_ne q k1 k v1 (Ne.symm hk)]
      · rw [if_neg ht] at hq
        exact ih k v hnd.2 hfind hskip q res hq

theorem queryLoop_multikey (ps : List (String × JVal)) :
    ∀ (k : String) (kvs : List (String × JVal)),
    (k, JVal.obj kvs) ∈ ps → 1 < kvs.length →
    ∀ q, queryLoop ps q = .error (.runtimeError "Unexpected nested data.") := by
  induction ps with
  | nil => intro k kvs h _ _; cases h
  | cons hd tl ih =>
    obtain ⟨k1, v1⟩ := hd
    intro k kvs hmem hlen q
    rw [queryLoop]
    rcases List.mem_cons.mp hmem with he | htl
    · obtain ⟨rfl, rfl⟩ : k1 = k ∧ v1 = .obj kvs := by
        injection he with h1 h2
        exact ⟨h1.symm, h2.symm⟩
      have htr : (JVal.obj kvs).truthy = true := by
        rcases kvs with _ | ⟨a, rest⟩
        · simp at hlen
        · rfl
      have hs : isSkipEntry (.obj kvs) = false := by
        cases hb : isSkipEntry (.obj kvs)
        · rfl
        · exfalso
          rcases (isSkipEntry_iff _).mp hb with ⟨op, he2⟩
          injection he2 with he3
          rw [he3] at hlen
          simp at hlen
      have hm : isMultiEntry (.obj kvs) = true := by
        simp [isMultiEntry, hlen]
      rw [if_pos htr, if_neg (by simp [hs]), if_pos hm]
    · by_cases ht : v1.truthy
      · by_cases hs : isSkipEntry v1
        · rw [if_pos ht, if_pos hs]
          exact ih k kvs htl hlen q
        · by_cases hm : isMultiEntry v1
          · rw [if_pos ht, if_neg (by simp [hs]), if_pos hm]
          · rw [if_pos ht, if_neg (by simp [hs]), if_neg (by simp [hm])]
            exact ih k kvs htl hlen _
      · rw [if_neg ht]
        exact ih k kvs htl hlen q

/-! ### `generate_json` structure lemmas -/

theorem generate_json_ok_elim (c : JsonConstructor) (doc : JVal)
    (c' : JsonConstructor) (h : c.generate_json = .ok (doc, c')) :
    c' = c ∧ ∃ q, c.queryStage = .ok q ∧ doc = .obj (c.finishDoc q) := by
  rw [JsonConstructor.generate_json] at h
  cases hqs : c.queryStage with
  | error e => rw [hqs] at h; cases h
  | ok q =>
    rw [hqs] at h
    injection h with h1
    obtain ⟨h2, h3⟩ := Prod.mk.injEq .. ▸ h1
    exact ⟨h3.symm, q, rfl, h2.symm⟩

theorem queryOf_finishDoc (c : JsonConstructor) (q : List (String × JVal)) :
    queryOf (.obj (c.finishDoc q)) = some (.obj q) := by
  show jlookup (c.finishDoc q) "query" = some (.obj q)
  rw [JsonConstructor.finishDoc]
  by_cases h : c._sort_col.truthy
  · rw [if_pos h,
      jlookup_dinsert_ne _ "sort" "query" _ (by decide),
      jlookup_dinsert_self]
  · rw [if_neg h, jlookup_dinsert_self]

theorem queryStage_lookup_none (c : JsonConstructor) (k : String)
    (hp : jlookup c.params k = none)
    (hm : k ∉ keys c._manual_json_params) :
    ∀ q, c.queryStage = .ok q → jlookup q k = none := by
  intro q h
  rw [JsonConstructor.queryStage] at h
  rw [queryLoop_lookup_of_none c.params k hp _ q h]
  by_cases hme : c._manual_json_params.isEmpty
  · rw [if_pos hme]; rfl
  · rw [if_neg hme, manualLoop_lookup_not_mem _ k hm]; rfl

theorem queryStage_lookup_found (c : JsonConstructor) (k : String) (v : JVal)
    (hnd : (keys c.params).Nodup) (hp : jlookup c.params k = some v)
    (htr : v.truthy = true) (hskip : isSkipEntry v = false)
    (hmulti : isMultiEntry v = false) :
    ∀ q, c.queryStage = .ok q → jlookup q k = some v := by
  intro q h
  exact queryLoop_lookup_found c.params k v hnd hp htr hskip hmulti _ q h

/-! ### Setter computation lemmas -/

@[simp] theorem except_bind_ok {α β : Type} (a : α)
    (f : α → Except PyErr β) : (Except.ok a >>= f) = f a := rfl

@[simp] theorem except_bind_error {α β : Type} (e : PyErr)
    (f : α → Except PyErr β) :
    ((Except.error e : Except PyErr α) >>= f) = Except.error e := rfl

theorem eqNum_int_false (v : Int) (n : Int) (h : v ≠ n) :
    JVal.eqNum (.int v) n = false := by
  simp only [JVal.eqNum, beq_eq_false_iff_ne, ne_eq]
  exact h

theorem cloud_cover_max_set_int (c : JsonConstructor) (v : Int)
    (h0 : 0 ≤ v) (h100 : v ≤ 100) (hne : v ≠ 100) :
    c.cloud_cover_max_set (.int v) =
      .ok { c with
        _cloud_cover_max := .obj [("eo:cloud_cover", .int v)]
        params := dinsert c.params "eo:cloud_cover"
          (.obj [("lt", .int v)]) } := by
  rw [JsonConstructor.cloud_cover_max_set,
    if_neg (by rw [eqNum_int_false v 100 hne]; exact Bool.false_ne_true)]
  show (if JVal.toIntVal (.int v) < 0 ∨ 100 < JVal.toIntVal (.int v)
      then _ else _) = _
  rw [if_neg (by simp only [JVal.toIntVal]; omega)]

theorem cloud_cover_land_max_set_int (c : JsonConstructor) (v : Int)
    (hne : v ≠ 100) :
    c.cloud_cover_land_max_set (.int v) =
      .ok { c with
        _cloud_cover_land_max := .int v
        params := dinsert c.params "landsat:cloud_cover_land"
          (.obj [("lt", .int v)]) } := by
  rw [JsonConstructor.cloud_cover_land_max_set,
    if_neg (by rw [eqNum_int_false v 100 hne]; exact Bool.false_ne_true)]
  rfl

/-! ### Claim C10 -/

/-- C10: for every builder state, a successful `generate_json` returns the
builder unchanged, and calling it again with no intervening mutation
returns the structurally identical document: rendering has no side effect
on the builder state. -/
theorem c10_generate_json_idempotent (c : JsonConstructor) (doc : JVal)
    (c' : JsonConstructor) (h : c.generate_json = .ok (doc, c')) :
    c' = c ∧ c'.generate_json = .ok (doc, c') := by
  obtain ⟨hc, q, hq, hd⟩ := generate_json_ok_elim c doc c' h
  subst hc
  exact ⟨rfl, h⟩

/-- Witness for C10 at the freshly initialised builder with limit 10. -/
theorem c10_generate_json_idempotent_witness :
    JsonConstructor.init 10 = JsonConstructor.init 10 ∧
    (JsonConstructor.init 10).generate_json =
      .ok (.obj [("limit", .int 10), ("query", .obj [])],
        JsonConstructor.init 10) :=
  c10_generate_json_idempotent (JsonConstructor.init 10)
    (.obj [("limit", .int 10), ("query", .obj [])])
    (JsonConstructor.init 10) rfl

/-! ### Claim C3 -/

/-- C3: whenever the `collection` setter accepts a value, the resulting
builder differs from the original in the private `_collection` field
only, and the document rendered by `generate_json` is identical to the
one rendered without setting a collection: no collection filter is ever
emitted into the query body. -/
theorem c3_collection_setter_frame (c : JsonConstructor) (val : JVal)
    (c' : JsonConstructor) (h : c.collection_set val = .ok c') :
    c' = { c with _collection := val } ∧
    Except.map Prod.fst c'.generate_json =
      Except.map Prod.fst c.generate_json := by
  cases val <;> rw [JsonConstructor.collection_set] at h
  case str s =>
    split at h
    · injection h with h1
      subst h1
      refine ⟨rfl, ?_⟩
      have hqs : ({ c with _collection := JVal.str s } :
          JsonConstructor).queryStage = c.queryStage := rfl
      rw [JsonConstructor.generate_json, JsonConstructor.generate_json, hqs]
      cases hq : c.queryStage with
      | error e => rfl
      | ok q => rfl
    · cases h
  all_goals cases h

/-- Witness for C3 at the fresh builder and the accepted collection
`'landsat-c2l1'`. -/
theorem c3_collection_setter_frame_witness :
    ({ JsonConstructor.init 10 with
        _collection := JVal.str "landsat-c2l1" } : JsonConstructor) =
      { JsonConstructor.init 10 with
        _collection := JVal.str "landsat-c2l1" } ∧
    Except.map Prod.fst
      ({ JsonConstructor.init 10 with
          _collection := JVal.str "landsat-c2l1" } :
          JsonConstructor).generate_json =
      Except.map Prod.fst (JsonConstructor.init 10).generate_json :=
  c3_collection_setter_frame (JsonConstructor.init 10)
    (JVal.str "landsat-c2l1")
    { JsonConstructor.init 10 with _collection := JVal.str "landsat-c2l1" }
    rfl

/-! ### Claim C4 -/

/-- C4 counterexample: the float `100.0` is a non-integer input on which
the `cloud_cover_max` setter neither raises nor stores anything — the
leading `if val != 100:` guard filters it out before `check_if_int` can
run — refuting the claim that every non-integer input raises a
validation error. -/
theorem c4_float100_counterexample :
    (JVal.float 100).isIntLike = false ∧
    (JsonConstructor.init 10).cloud_cover_max_set (.float 100) =
      .ok (JsonConstructor.init 10) := by
  refine ⟨rfl, ?_⟩
  rw [JsonConstructor.cloud_cover_max_set, if_pos]
  show JVal.eqNum (.float 100) 100 = true
  simp [JVal.eqNum]

/-- C4 (amended): for integers `v` in `[0, 100)` the setter stores
`{'lt': v}` under `'eo:cloud_cover'` and the rendered query carries that
entry; any value equal to `100` — whether the integer or a non-integer
such as `100.0` — is a silent no-op, and the key stays absent from the
rendered query when nothing else set it; every non-integer input not
equal to 100 raises the type validation error, and integers outside
`[0, 100]` raise the range validation error. -/
theorem c4_cloud_cover_max_amended (c : JsonConstructor)
    (hnd : (keys c.params).Nodup) :
    (∀ v : Int, 0 ≤ v → v ≤ 100 → v ≠ 100 →
      ∃ c', c.cloud_cover_max_set (.int v) = .ok c' ∧
        jlookup c'.params "eo:cloud_cover" =
          some (.obj [("lt", .int v)]) ∧
        ∀ doc c'', c'.generate_json = .ok (doc, c'') →
          ∃ q, queryOf doc = some (.obj q) ∧
            jlookup q "eo:cloud_cover" = some (.obj [("lt", .int v)])) ∧
    (∀ val : JVal, val.eqNum 100 = true →
      c.cloud_cover_max_set val = .ok c) ∧
    (jlookup c.params "eo:cloud_cover" = none →
      "eo:cloud_cover" ∉ keys c._manual_json_params →
      ∀ doc c', c.generate_json = .ok (doc, c') →
        ∃ q, queryOf doc = some (.obj q) ∧
          jlookup q "eo:cloud_cover" = none) ∧
    (∀ val : JVal, val.isIntLike = false → val.eqNum 100 = false →
      c.cloud_cover_max_set val =
        .error (.typeError "Input value is not an integer type.")) ∧
    (∀ v : Int, v < 0 ∨ 100 < v →
      c.cloud_cover_max_set (.int v) =
        .error (.valueError
          "Cloud cover value is not an integer ranging from 0 and 100.")) := by
  refine ⟨?_, ?_, ?_, ?_, ?_⟩
  · intro v h0 h100 hne
    refine ⟨_, cloud_cover_max_set_int c v h0 h100 hne,
      jlookup_dinsert_self c.params "eo:cloud_cover" _, ?_⟩
    intro doc c'' h
    obtain ⟨-, q, hq, rfl⟩ := generate_json_ok_elim _ doc c'' h
    refine ⟨q, queryOf_finishDoc _ q, ?_⟩
    exact queryStage_lookup_found _ "eo:cloud_cover"
      (.obj [("lt", .int v)])
      (keys_nodup_dinsert c.params _ _ hnd)
      (jlookup_dinsert_self c.params _ _) rfl rfl rfl q hq
  · intro val hv
    rw [JsonConstructor.cloud_cover_max_set, if_pos hv]
  · intro hp hm doc c' h
    obtain ⟨-, q, hq, rfl⟩ := generate_json_ok_elim _ doc c' h
    exact ⟨q, queryOf_finishDoc _ q,
      queryStage_lookup_none c "eo:cloud_cover" hp hm q hq⟩
  · intro val hint h100
    rw [JsonConstructor.cloud_cover_max_set,
      if_neg (by rw [h100]; exact Bool.false_ne_true)]
    rw [show check_if_int val = .error
      (.typeError "Input value is not an integer type.") by
        rw [check_if_int, if_neg (by rw [hint]; exact Bool.false_ne_true)]]
  · intro v hv
    have hne : v ≠ 100 := by omega
    rw [JsonConstructor.cloud_cover_max_set,
      if_neg (by
        rw [eqNum_int_false v 100 hne]
        exact Bool.false_ne_true)]
    show (if JVal.toIntVal (.int v) < 0 ∨ 100 < JVal.toIntVal (.int v)
        then _ else _) = _
    rw [if_pos (by simp only [JVal.toIntVal]; omega)]

/-- Witness for C4 (amended) at the fresh builder: the integer 57 is
stored and rendered, the float `100.0` is a no-op, the key is absent
from the fresh builder's rendered query, the string `"x"` raises the
type error, and 150 raises the range error. -/
theorem c4_cloud_cover_max_amended_witness :
    (∃ c', (JsonConstructor.init 10).cloud_cover_max_set (.int 57) =
        .ok c' ∧
      jlookup c'.params "eo:cloud_cover" =
        some (.obj [("lt", .int 57)]) ∧
      ∀ doc c'', c'.generate_json = .ok (doc, c'') →
        ∃ q, queryOf doc = some (.obj q) ∧
          jlookup q "eo:cloud_cover" = some (.obj [("lt", .int 57)])) ∧
    (JsonConstructor.init 10).cloud_cover_max_set (.float 100) =
      .ok (JsonConstructor.init 10) ∧
    (∃ q, queryOf (.obj [("limit", .int 10), ("query", .obj [])]) =
        some (.obj q) ∧ jlookup q "eo:cloud_cover" = none) ∧
    (JsonConstructor.init 10).cloud_cover_max_set (.str "x") =
      .error (.typeError "Input value is not an integer type.") ∧
    (JsonConstructor.init 10).cloud_cover_max_set (.int 150) =
      .error (.valueError
        "Cloud cover value is not an integer ranging from 0 and 100.") := by
  have h := c4_cloud_cover_max_amended (JsonConstructor.init 10) (by decide)
  exact ⟨h.1 57 (by decide) (by decide) (by decide),
    h.2.1 (.float 100) (by simp [JVal.eqNum]),
    h.2.2.1 rfl (by decide) _ (JsonConstructor.init 10) rfl,
    h.2.2.2.1 (.str "x") rfl rfl,
    h.2.2.2.2 150 (by decide)⟩

/-! ### Claim C6 -/

/-- C6 counterexample: the out-of-range integer 150 is accepted by the
`cloud_cover_land_max` setter and stored as `{'lt': 150}` — the setter
performs no range check — refuting the claim that integers outside
`[0, 100]` are rejected with a validation error. -/
theorem c6_out_of_range_accepted :
    (JsonConstructor.init 10).cloud_cover_land_max_set (.int 150) =
      .ok { JsonConstructor.init 10 with
        _cloud_cover_land_max := .int 150
        params := [("landsat:scene_id", .obj [("eq", .null)]),
                   ("landsat:cloud_cover_land", .obj [("lt", .int 150)])] } :=
  rfl

/-- C6 (amended): `cloud_cover_land_max` follows the sentinel convention
of `cloud_cover_max` under the key `'landsat:cloud_cover_land'` — any
value equal to 100 is a no-op and non-integer inputs not equal to 100
raise the type validation error — but it performs no range check: every
integer other than 100, in range or not, is stored as `{'lt': v}`. -/
theorem c6_cloud_cover_land_amended (c : JsonConstructor) :
    (∀ v : Int, v ≠ 100 →
      c.cloud_cover_land_max_set (.int v) =
        .ok { c with
          _cloud_cover_land_max := .int v
          params := dinsert c.params "landsat:cloud_cover_land"
            (.obj [("lt", .int v)]) }) ∧
    (∀ val : JVal, val.eqNum 100 = true →
      c.cloud_cover_land_max_set val = .ok c) ∧
    (∀ val : JVal, val.isIntLike = false → val.eqNum 100 = false →
      c.cloud_cover_land_max_set val =
        .error (.typeError "Input value is not an integer type.")) := by
  refine ⟨?_, ?_, ?_⟩
  · intro v hne
    exact cloud_cover_land_max_set_int c v hne
  · intro val hv
    rw [JsonConstructor.cloud_cover_land_max_set, if_pos hv]
  · intro val hint h100
    rw [JsonConstructor.cloud_cover_land_max_set,
      if_neg (by rw [h100]; exact Bool.false_ne_true)]
    rw [show check_if_int val = .error
      (.typeError "Input value is not an integer type.") by
        rw [check_if_int, if_neg (by rw [hint]; exact Bool.false_ne_true)]]

/-- Witness for C6 (amended) at the fresh builder: 42 is stored, the
float `100.0` is a no-op, and the string `"x"` raises the type error. -/
theorem c6_cloud_cover_land_amended_witness :
    (JsonConstructor.init 10).cloud_cover_land_max_set (.int 42) =
      .ok { JsonConstructor.init 10 with
        _cloud_cover_land_max := .int 42
        params := dinsert (JsonConstructor.init 10).params
          "landsat:cloud_cover_land" (.obj [("lt", .int 42)]) } ∧
    (JsonConstructor.init 10).cloud_cover_land_max_set (.float 100) =
      .ok (JsonConstructor.init 10) ∧
    (JsonConstructor.init 10).cloud_cover_land_max_set (.str "x") =
      .error (.typeError "Input value is not an integer type.") := by
  have h := c6_cloud_cover_land_amended (JsonConstructor.init 10)
  exact ⟨h.1 42 (by decide), h.2.1 (.float 100) (by simp [JVal.eqNum]),
    h.2.2 (.str "x") rfl rfl⟩

/-! ### Claim C5 -/

theorem mem_wrsValidVals (bound : Nat) (v : String) :
    v ∈ wrsValidVals bound ↔ ∃ n, n < bound ∧ v = zfill (Nat.repr n) 3 := by
  simp only [wrsValidVals, List.mem_map, List.mem_range]
  constructor
  · rintro ⟨n, hn, he⟩
    exact ⟨n, hn, he.symm⟩
  · rintro ⟨n, hn, he⟩
    exact ⟨n, hn, he.symm⟩

theorem wrs_path_set_str_ok (c : JsonConstructor) (s : String)
    (h : zfill s 3 ∈ wrsValidVals 255) :
    c.wrs_path_set (.str s) =
      .ok { c with
        _wrs_path := .obj [("landsat:wrs_path", .str (zfill s 3))]
        params := dinsert c.params "landsat:wrs_path"
          (.obj [("eq", .str (zfill s 3))]) } := by
  rw [JsonConstructor.wrs_path_set]
  show (if zfill s 3 ∈ wrsValidVals 255 then _ else _) = _
  rw [if_pos h]

theorem wrs_path_set_str_err (c : JsonConstructor) (s : String)
    (h : zfill s 3 ∉ wrsValidVals 255) :
    c.wrs_path_set (.str s) =
      .error (.searchError "Input WRS path is invalid.") := by
  rw [JsonConstructor.wrs_path_set]
  show (if zfill s 3 ∈ wrsValidVals 255 then _ else _) = _
  rw [if_neg h]

theorem wrs_path_set_nonstr (c : JsonConstructor) (val : JVal)
    (h : val.isStr = false) :
    c.wrs_path_set val =
      .error (.typeError "Input value is not a string type.") := by
  cases val
  case str s => exact absurd h (by simp [JVal.isStr])
  all_goals rfl

theorem wrs_row_set_str_ok (c : JsonConstructor) (s : String)
    (h : zfill s 3 ∈ wrsValidVals 248) :
    c.wrs_row_set (.str s) =
      .ok { c with
        _wrs_row := .obj [("landsat:wrs_row", .str (zfill s 3))]
        params := dinsert c.params "landsat:wrs_row"
          (.obj [("eq", .str (zfill s 3))]) } := by
  rw [JsonConstructor.wrs_row_set]
  show (if zfill s 3 ∈ wrsValidVals 248 then _ else _) = _
  rw [if_pos h]

theorem wrs_row_set_str_err (c : JsonConstructor) (s : String)
    (h : zfill s 3 ∉ wrsValidVals 248) :
    c.wrs_row_set (.str s) =
      .error (.searchError "Input WRS row is invalid.") := by
  rw [JsonConstructor.wrs_row_set]
  show (if zfill s 3 ∈ wrsValidVals 248 then _ else _) = _
  rw [if_neg h]

theorem wrs_row_set_nonstr (c : JsonConstructor) (val : JVal)
    (h : val.isStr = false) :
    c.wrs_row_set val =
      .error (.typeError "Input value is not a string type.") := by
  cases val
  case str s => exact absurd h (by simp [JVal.isStr])
  all_goals rfl

/-- C5: for every input to the `wrs_path` / `wrs_row` setters, a
non-string raises the type validation error; a string is zero-padded to
three characters and accepted exactly when the padded form is one of the
zero-padded values of `range(0, 255)` (path) / `range(0, 248)` (row),
i.e. `000`–`254` / `000`–`247`; on acceptance the builder stores — and
the rendered query contains — `{'eq': paddedValue}` under
`'landsat:wrs_path'` / `'landsat:wrs_row'`; any other string raises the
library's validation error. -/
theorem c5_wrs_setters (c : JsonConstructor)
    (hnd : (keys c.params).Nodup) :
    (∀ val : JVal, val.isStr = false →
      c.wrs_path_set val =
        .error (.typeError "Input value is not a string type.") ∧
      c.wrs_row_set val =
        .error (.typeError "Input value is not a string type.")) ∧
    (∀ s : String,
      ((∃ c', c.wrs_path_set (.str s) = .ok c') ↔
        ∃ n, n < 255 ∧ zfill s 3 = zfill (Nat.repr n) 3) ∧
      ((∃ c', c.wrs_row_set (.str s) = .ok c') ↔
        ∃ n, n < 248 ∧ zfill s 3 = zfill (Nat.repr n) 3) ∧
      (∀ c', c.wrs_path_set (.str s) = .ok c' →
        jlookup c'.params "landsat:wrs_path" =
          some (.obj [("eq", .str (zfill s 3))]) ∧
        ∀ doc c'', c'.generate_json = .ok (doc, c'') →
          ∃ q, queryOf doc = some (.obj q) ∧
            jlookup q "landsat:wrs_path" =
              some (.obj [("eq", .str (zfill s 3))])) ∧
      (∀ c', c.wrs_row_set (.str s) = .ok c' →
        jlookup c'.params "landsat:wrs_row" =
          some (.obj [("eq", .str (zfill s 3))]) ∧
        ∀ doc c'', c'.generate_json = .ok (doc, c'') →
          ∃ q, queryOf doc = some (.obj q) ∧
            jlookup q "landsat:wrs_row" =
              some (.obj [("eq", .str (zfill s 3))]))) ∧
    (∀ s : String, zfill s 3 ∉ wrsValidVals 255 →
      c.wrs_path_set (.str s) =
        .error (.searchError "Input WRS path is invalid.")) ∧
    (∀ s : String, zfill s 3 ∉ wrsValidVals 248 →
      c.wrs_row_set (.str s) =
        .error (.searchError "Input WRS row is invalid.")) := by
  refine ⟨?_, ?_, wrs_path_set_str_err c, wrs_row_set_str_err c⟩
  · intro val h
    exact ⟨wrs_path_set_nonstr c val h, wrs_row_set_nonstr c val h⟩
  · intro s
    refine ⟨?_, ?_, ?_, ?_⟩
    · constructor
      · rintro ⟨c', hc⟩
        by_cases hm : zfill s 3 ∈ wrsValidVals 255
        · exact (mem_wrsValidVals 255 (zfill s 3)).mp hm
        · rw [wrs_path_set_str_err c s hm] at hc
          cases hc
      · intro he
        exact ⟨_, wrs_path_set_str_ok c s
          ((mem_wrsValidVals 255 (zfill s 3)).mpr he)⟩
    · constructor
      · rintro ⟨c', hc⟩
        by_cases hm : zfill s 3 ∈ wrsValidVals 248
        · exact (mem_wrsValidVals 248 (zfill s 3)).mp hm
        · rw [wrs_row_set_str_err c s hm] at hc
          cases hc
      · intro he
        exact ⟨_, wrs_row_set_str_ok c s
          ((mem_wrsValidVals 248 (zfill s 3)).mpr he)⟩
    · intro c' hc
      by_cases hm : zfill s 3 ∈ wrsValidVals 255
      · rw [wrs_path_set_str_ok c s hm] at hc
        injection hc with h1
        subst h1
        refine ⟨jlookup_dinsert_self c.params _ _, ?_⟩
        intro doc c'' h
        obtain ⟨-, q, hq, rfl⟩ := generate_json_ok_elim _ doc c'' h
        refine ⟨q, queryOf_finishDoc _ q, ?_⟩
        exact queryStage_lookup_found _ "landsat:wrs_path"
          (.obj [("eq", .str (zfill s 3))])
          (keys_nodup_dinsert c.params _ _ hnd)
          (jlookup_dinsert_self c.params _ _) rfl rfl rfl q hq
      · rw [wrs_path_set_str_err c s hm] at hc
        cases hc
    · intro c' hc
      by_cases hm : zfill s 3 ∈ wrsValidVals 248
      · rw [wrs_row_set_str_ok c s hm] at hc
        injection hc with h1
        subst h1
        refine ⟨jlookup_dinsert_self c.params _ _, ?_⟩
        intro doc c'' h
        obtain ⟨-, q, hq, rfl⟩ := generate_json_ok_elim _ doc c'' h
        refine ⟨q, queryOf_finishDoc _ q, ?_⟩
        exact queryStage_lookup_found _ "landsat:wrs_row"
          (.obj [("eq", .str (zfill s 3))])
          (keys_nodup_dinsert c.params _ _ hnd)
          (jlookup_dinsert_self c.params _ _) rfl rfl rfl q hq
      · rw [wrs_row_set_str_err c s hm] at hc
        cases hc

/-- Witness for C5 at the fresh builder: the integer 5 raises the type
error on both setters, and the string `"300"` (padding to `"300"`,
outside `000`–`254`) is accepted by neither characterisation side. -/
theorem c5_wrs_setters_witness :
    ((JsonConstructor.init 10).wrs_path_set (.int 5) =
        .error (.typeError "Input value is not a string type.") ∧
      (JsonConstructor.init 10).wrs_row_set (.int 5) =
        .error (.typeError "Input value is not a string type.")) ∧
    ((∃ c', (JsonConstructor.init 10).wrs_path_set (.str "5") = .ok c') ↔
      ∃ n, n < 255 ∧ zfill "5" 3 = zfill (Nat.repr n) 3) :=
  ⟨(c5_wrs_setters (JsonConstructor.init 10) (by decide)).1 (.int 5) rfl,
    ((c5_wrs_setters (JsonConstructor.init 10) (by decide)).2.1 "5").1⟩

/-! ### Claim C9 -/

/-- C9: `generate_json` omits from the rendered query every stored typed
filter whose value is a single-entry comparison dict holding `None`
(provided no manual entry reintroduces the key), and raises
`RuntimeError('Unexpected nested data.')` whenever any stored typed
filter value is a dict with more than one entry. -/
theorem c9_generate_json_filtering (c : JsonConstructor) :
    (∀ (k op : String), (keys c.params).Nodup →
      jlookup c.params k = some (.obj [(op, .null)]) →
      k ∉ keys c._manual_json_params →
      ∀ doc c', c.generate_json = .ok (doc, c') →
        ∃ q, queryOf doc = some (.obj q) ∧ jlookup q k = none) ∧
    (∀ (k : String) (kvs : List (String × JVal)),
      (k, JVal.obj kvs) ∈ c.params → 1 < kvs.length →
      c.generate_json =
        .error (.runtimeError "Unexpected nested data.")) := by
  constructor
  · intro k op hnd hfind hm doc c' h
    obtain ⟨-, q, hq, rfl⟩ := generate_json_ok_elim c doc c' h
    refine ⟨q, queryOf_finishDoc c q, ?_⟩
    rw [JsonConstructor.queryStage] at hq
    rw [queryLoop_lookup_skip c.params k (.obj [(op, .null)]) hnd hfind rfl
      _ q hq]
    by_cases hme : c._manual_json_params.isEmpty
    · rw [if_pos hme]
      rfl
    · rw [if_neg hme, manualLoop_lookup_not_mem _ k hm]
      rfl
  · intro k kvs hmem hlen
    have herr : c.queryStage =
        .error (.runtimeError "Unexpected nested data.") := by
      rw [JsonConstructor.queryStage]
      exact queryLoop_multikey c.params k kvs hmem hlen _
    rw [JsonConstructor.generate_json, herr]

/-- Witness for C9: the fresh builder's `{'eq': None}` scene-id entry is
omitted from the rendered query, and a builder holding a two-entry
nested dict fails with the structural error. -/
theorem c9_generate_json_filtering_witness :
    (∃ q, queryOf (.obj [("limit", .int 10), ("query", .obj [])]) =
        some (.obj q) ∧ jlookup q "landsat:scene_id" = none) ∧
    ({ JsonConstructor.init 10 with
        params := [("x", .obj [("a", .int 1), ("b", .int 2)])] } :
        JsonConstructor).generate_json =
      .error (.runtimeError "Unexpected nested data.") :=
  ⟨(c9_generate_json_filtering (JsonConstructor.init 10)).1
      "landsat:scene_id" "eq" (by decide) rfl (by decide) _
      (JsonConstructor.init 10) rfl,
    (c9_generate_json_filtering _).2 "x" [("a", .int 1), ("b", .int 2)]
      (by simp) (by decide)⟩

/-! ### Claim C1 -/

/-- C1 (code bug exhibit): on a fresh builder with the platform filter
set via the typed setter, (a) the bulk `set_metadata` method crashes with
`AttributeError` — its first statement writes to the never-assigned
attribute `self.json` — before recording any manual override, and (b)
even for a state whose `_manual_json_params` holds a manual `'platform'`
override, `generate_json` writes the typed entries after the manual
ones, so the rendered query carries the typed value `'LANDSAT_8'`, not
the manual `'LANDSAT_9'` — contrary to the precedence the method's own
docstring promises. -/
theorem c1_manual_override_loses :
    (JsonConstructor.init 10).platform_set (.str "LANDSAT_8") =
      .ok c1typed ∧
    c1typed.set_metadata
        [("platform", .obj [("eq", .str "LANDSAT_9")])] =
      .error
        (.attributeError "JsonConstructor object has no attribute json") ∧
    c1state.generate_json =
      .ok (.obj [("limit", .int 10),
          ("query", .obj [("platform", .obj [("eq", .str "LANDSAT_8")])])],
        c1state) :=
  ⟨rfl, rfl, rfl⟩

/-! ### Claim C2 -/

/-- C2 (code bug exhibit): a `STACResult` built from a two-feature
response holds both scenes in source order, yet a full `for` traversal
(`__iter__` then `__next__` until `StopIteration`) yields exactly one
scene — the second — because `__next__` increments `_n` before
returning and raises `StopIteration` when `_n + 1` equals the length;
a second traversal restarts and again yields only the second scene. -/
theorem c2_iteration_skips_first :
    STACResult.init c2resp = .ok c2r ∧
    c2r.features.map Scene.id = [.str "a", .str "b"] ∧
    c2r.forLoop.1.map Scene.id = [.str "b"] ∧
    (c2r.forLoop.2).forLoop.1.map Scene.id = [.str "b"] :=
  ⟨rfl, rfl, rfl, rfl⟩

/-! ### Claims C7 and C2/C7 support -/

theorem scenesOfList_length (items : List JVal) :
    ∀ ss, scenesOfList items = .ok ss → ss.length = items.length := by
  induction items with
  | nil =>
    intro ss h
    rw [scenesOfList] at h
    injection h with h1
    rw [← h1]
    rfl
  | cons f rest ih =>
    intro ss h
    rw [scenesOfList] at h
    cases hs : sceneOf f with
    | error e =>
      rw [hs] at h
      simp only [except_bind_error] at h
      cases h
    | ok s0 =>
      rw [hs] at h
      simp only [except_bind_ok] at h
      cases hr : scenesOfList rest with
      | error e =>
        rw [hr] at h
        simp only [except_bind_error] at h
        cases h
      | ok ss' =>
        rw [hr] at h
        simp only [except_bind_ok] at h
        injection h with h1
        rw [← h1]
        simp [ih ss' hr]

theorem scenesOfList_get (items : List JVal) :
    ∀ ss, scenesOfList items = .ok ss →
    ∀ i, i < items.length →
      ∃ s, ss.get? i = some s ∧
        sceneOf (items.getD i .null) = .ok s := by
  induction items with
  | nil =>
    intro ss h i hi
    exact absurd hi (by simp)
  | cons f rest ih =>
    intro ss h i hi
    rw [scenesOfList] at h
    cases hs : sceneOf f with
    | error e =>
      rw [hs] at h
      simp only [except_bind_error] at h
      cases h
    | ok s0 =>
      rw [hs] at h
      simp only [except_bind_ok] at h
      cases hr : scenesOfList rest with
      | error e =>
        rw [hr] at h
        simp only [except_bind_error] at h
        cases h
      | ok ss' =>
        rw [hr] at h
        simp only [except_bind_ok] at h
        injection h with h1
        rw [← h1]
        cases i with
        | zero => exact ⟨s0, rfl, by simpa using hs⟩
        | succ j =>
          obtain ⟨s, h2, h3⟩ := ih ss' hr j (by simpa using hi)
          exact ⟨s, h2, by simpa using h3⟩

theorem STACResult_init_features (result : JVal)
    (entries : List (String × JVal)) (items : List JVal) (r : STACResult)
    (hres : result = .obj entries)
    (hfeat : jlookup entries "features" = some (.arr items))
    (h : STACResult.init result = .ok r) :
    scenesOfList items = .ok r.features ∧
    r.features.length = items.length := by
  subst hres
  have hf : pyGetItemStr (.obj entries) "features" = .ok (.arr items) := by
    rw [pyGetItemStr, hfeat]
  rw [STACResult.init] at h
  split at h
  · next e heq =>
    rw [hf] at heq
    cases heq
  · next items1 heq =>
    rw [hf] at heq
    injection heq with heq1
    injection heq1 with heq2
    subst heq2
    split at h
    · cases h
    · next scenes heq2 =>
      split at h
      · cases h
      · next meta heq3 =>
        injection h with h1
        rw [← h1]
        exact ⟨heq2, scenesOfList_length items scenes heq2⟩
  · next x hne heq =>
    rw [hf] at heq
    injection heq with heq1
    exact absurd heq1.symm (hne items)

theorem pyListGet_pos {α : Type} (xs : List α) (i : Int) (h0 : 0 ≤ i)
    (s : α) (hs : xs.get? i.toNat = some s) : pyListGet xs i = .ok s := by
  have hpy : pyIdx xs.length i = i := by
    rw [pyIdx, if_neg (by omega)]
  rw [pyListGet, hpy, if_pos h0, hs]

theorem pyListGet_oob {α : Type} (xs : List α) (i : Int)
    (h : (xs.length : Int) ≤ i) :
    pyListGet xs i = .error (.indexError "list index out of range") := by
  have h0 : (0 : Int) ≤ i := by omega
  have hpy : pyIdx xs.length i = i := by
    rw [pyIdx, if_neg (by omega)]
  rw [pyListGet, hpy, if_pos h0,
    show xs.get? i.toNat = none from List.get?_eq_none.mpr (by omega)]

/-- C7: a `STACResult` built from a response whose `features` array has
`n` entries satisfies `len == n`; indexing with `i` in `[0, n)` returns
the scene parsed from the `i`-th feature, preserving source order; and
indexing at or beyond `n` fails with `IndexError`. -/
theorem c7_resultset_len_index (result : JVal)
    (entries : List (String × JVal)) (items : List JVal) (r : STACResult)
    (hres : result = .obj entries)
    (hfeat : jlookup entries "features" = some (.arr items))
    (hinit : STACResult.init result = .ok r) :
    r.len = items.length ∧
    (∀ i : Int, 0 ≤ i → i < (items.length : Int) →
      ∃ s, r.getitem i = .ok s ∧
        sceneOf (items.getD i.toNat .null) = .ok s) ∧
    (∀ i : Int, (items.length : Int) ≤ i →
      r.getitem i = .error (.indexError "list index out of range")) := by
  obtain ⟨hsc, hlen⟩ :=
    STACResult_init_features result entries items r hres hfeat hinit
  refine ⟨hlen, ?_, ?_⟩
  · intro i h0 hlt
    have hi : i.toNat < items.length := by omega
    obtain ⟨s, hget, hscene⟩ :=
      scenesOfList_get items r.features hsc i.toNat hi
    exact ⟨s, pyListGet_pos r.features i h0 s hget, hscene⟩
  · intro i h
    exact pyListGet_oob r.features i (by rw [hlen]; exact h)

/-- Witness for C7 at a concrete one-feature response. -/
theorem c7_resultset_len_index_witness :
    c7r.len = [miniFeat "a"].length ∧
    (∀ i : Int, 0 ≤ i → i < (([miniFeat "a"] : List JVal).length : Int) →
      ∃ s, c7r.getitem i = .ok s ∧
        sceneOf (([miniFeat "a"] : List JVal).getD i.toNat .null) =
          .ok s) ∧
    (∀ i : Int, (([miniFeat "a"] : List JVal).length : Int) ≤ i →
      c7r.getitem i = .error (.indexError "list index out of range")) :=
  c7_resultset_len_index c7resp
    [("features", .arr [miniFeat "a"]),
     ("meta", .obj [("found", .int 1)])]
    [miniFeat "a"] c7r rfl rfl rfl

/-! ### Claim C8 and property-extraction support -/

theorem get_property_of_props (feature : JVal)
    (fkvs pkvs : List (String × JVal))
    (hf : feature = .obj fkvs)
    (hp : jlookup fkvs "properties" = some (.obj pkvs)) (attr : String) :
    Scene._get_property feature attr =
      .ok ((jlookup pkvs attr).getD .null) := by
  subst hf
  have hpg : pyGetItemStr (.obj fkvs) "properties" = .ok (.obj pkvs) := by
    rw [pyGetItemStr, hp]
  rw [Scene._get_property, hpg]
  show (match pyGetItemStr (.obj pkvs) attr with
        | .ok v => Except.ok v
        | .error (.keyError _) => .ok .null
        | .error e => .error e) =
    .ok ((jlookup pkvs attr).getD .null)
  cases hl : jlookup pkvs attr with
  | some v =>
    rw [show pyGetItemStr (.obj pkvs) attr = .ok v from by
      rw [pyGetItemStr, hl]]
    rfl
  | none =>
    rw [show pyGetItemStr (.obj pkvs) attr = .error (.keyError attr) from by
      rw [pyGetItemStr, hl]]
    rfl

theorem coeffStage_sun_azimuth (s : Scene) (name : String) (asset : JVal)
    (s' : Scene) (h : coeffStage s name asset = .ok s') :
    s'.sun_azimuth = s.sun_azimuth := by
  rw [coeffStage] at h
  repeat' split at h
  all_goals
    first
      | (injection h with h1; subst h1; rfl)
      | injection h

theorem mtlStage_sun_azimuth (s : Scene) (name : String) (asset : JVal)
    (s' : Scene) (h : mtlStage s name asset = .ok s') :
    s'.sun_azimuth = s.sun_azimuth := by
  rw [mtlStage] at h
  repeat' split at h
  all_goals
    first
      | (injection h with h1; subst h1; rfl)
      | injection h

theorem qaStage_sun_azimuth (s : Scene) (name : String) (asset : JVal)
    (s' : Scene) (h : qaStage s name asset = .ok s') :
    s'.sun_azimuth = s.sun_azimuth := by
  rw [qaStage] at h
  repeat' split at h
  all_goals
    first
      | (injection h with h1; subst h1; rfl)
      | injection h

theorem thumbStage_sun_azimuth (s : Scene) (name : String) (asset : JVal)
    (s' : Scene) (h : thumbStage s name asset = .ok s') :
    s'.sun_azimuth = s.sun_azimuth := by
  rw [thumbStage] at h
  repeat' split at h
  all_goals
    first
      | (injection h with h1; subst h1; rfl)
      | injection h

theorem bandStage_sun_azimuth (s : Scene) (name : String) (asset : JVal)
    (s' : Scene) (h : bandStage s name asset = .ok s') :
    s'.sun_azimuth = s.sun_azimuth := by
  rw [bandStage] at h
  repeat' split at h
  all_goals
    first
      | (injection h with h1; subst h1; rfl)
      | injection h

theorem processAsset_sun_azimuth (s : Scene) (name : String) (asset : JVal)
    (s' : Scene) (h : processAsset s name asset = .ok s') :
    s'.sun_azimuth = s.sun_azimuth := by
  rw [processAsset] at h
  cases h1 : coeffStage s name asset with
  | error e =>
    rw [h1] at h
    simp only [except_bind_error] at h
    cases h
  | ok s1 =>
    rw [h1] at h
    simp only [except_bind_ok] at h
    cases h2 : mtlStage s1 name asset with
    | error e =>
      rw [h2] at h
      simp only [except_bind_error] at h
      cases h
    | ok s2 =>
      rw [h2] at h
      simp only [except_bind_ok] at h
      cases h3 : qaStage s2 name asset with
      | error e =>
        rw [h3] at h
        simp only [except_bind_error] at h
        cases h
      | ok s3 =>
        rw [h3] at h
        simp only [except_bind_ok] at h
        cases h4 : thumbStage s3 name asset with
        | error e =>
          rw [h4] at h
          simp only [except_bind_error] at h
          cases h
        | ok s4 =>
          rw [h4] at h
          simp only [except_bind_ok] at h
          rw [bandStage_sun_azimuth s4 name asset s' h,
            thumbStage_sun_azimuth s3 name asset s4 h4,
            qaStage_sun_azimuth s2 name asset s3 h3,
            mtlStage_sun_azimuth s1 name asset s2 h2,
            coeffStage_sun_azimuth s name asset s1 h1]

theorem loadAssetsLoop_sun_azimuth (entries : List (String × JVal)) :
    ∀ s s', loadAssetsLoop entries s = .ok s' →
      s'.sun_azimuth = s.sun_azimuth := by
  induction entries with
  | nil =>
    intro s s' h
    rw [loadAssetsLoop] at h
    injection h with h1
    rw [← h1]
  | cons e rest ih =>
    obtain ⟨name, asset⟩ := e
    intro s s' h
    rw [loadAssetsLoop] at h
    cases h1 : processAsset s name asset with
    | error e2 =>
      rw [h1] at h
      simp only [except_bind_error] at h
      cases h
    | ok s1 =>
      rw [h1] at h
      simp only [except_bind_ok] at h
      rw [ih s1 s' h, processAsset_sun_azimuth s name asset s1 h1]

theorem load_assets_sun_azimuth (feature : JVal) (s s' : Scene)
    (h : Scene.load_assets feature s = .ok s') :
    s'.sun_azimuth = s.sun_azimuth := by
  rw [Scene.load_assets] at h
  cases ha : pyGetItemStr feature "assets" with
  | error e =>
    rw [ha] at h
    simp only [except_bind_error] at h
    cases h
  | ok assets =>
    rw [ha] at h
    simp only [except_bind_ok] at h
    split at h
    · exact loadAssetsLoop_sun_azimuth _ s s' h
    · injection h with h1
      rw [← h1]
    · injection h with h1
      rw [← h1]
    · cases h

theorem except_bind_ok_iff {α β : Type} (x : Except PyErr α)
    (f : α → Except PyErr β) (b : β) :
    (x >>= f) = .ok b ↔ ∃ a, x = .ok a ∧ f a = .ok b := by
  cases x with
  | error e =>
    simp only [except_bind_error]
    constructor
    · intro h
      cases h
    · rintro ⟨a, ha, -⟩
      cases ha
  | ok a =>
    simp only [except_bind_ok]
    constructor
    · intro h
      exact ⟨a, rfl, h⟩
    · rintro ⟨a2, ha, hfa⟩
      injection ha with ha2
      rw [← ha2] at hfa
      exact hfa

theorem sceneOf_sun_azimuth (feature : JVal)
    (fkvs pkvs : List (String × JVal))
    (hf : feature = .obj fkvs)
    (hp : jlookup fkvs "properties" = some (.obj pkvs))
    (hmiss : jlookup pkvs "view:sun_azimuth" = none) :
    ∀ s, sceneOf feature = .ok s → s.sun_azimuth = .null := by
  intro s h
  rw [sceneOf] at h
  rw [except_bind_ok_iff] at h
  obtain ⟨dv, hd, h⟩ := h
  rw [except_bind_ok_iff] at h
  obtain ⟨iv, hi, h⟩ := h
  rw [except_bind_ok_iff] at h
  obtain ⟨bv, hb, h⟩ := h
  rw [except_bind_ok_iff] at h
  obtain ⟨gv, hg, h⟩ := h
  simp only [get_property_of_props feature fkvs pkvs hf hp,
    except_bind_ok] at h
  have hpre := load_assets_sun_azimuth feature _ s h
  rw [hpre]
  show (jlookup pkvs "view:sun_azimuth").getD .null = .null
  rw [hmiss]
  rfl

/-- C8: for a feature whose `properties` mapping is present, every
property name absent from that mapping resolves through
`Scene._get_property` to the missing-value marker `None` rather than an
error, and in particular a parsed scene of a feature lacking
`view:sun_azimuth` has `sun_azimuth = None`. -/
theorem c8_missing_property_marker (feature : JVal)
    (fkvs pkvs : List (String × JVal))
    (hf : feature = .obj fkvs)
    (hp : jlookup fkvs "properties" = some (.obj pkvs)) :
    (∀ attr, jlookup pkvs attr = none →
      Scene._get_property feature attr = .ok .null) ∧
    (jlookup pkvs "view:sun_azimuth" = none →
      ∀ s, sceneOf feature = .ok s → s.sun_azimuth = .null) := by
  constructor
  · intro attr hmiss
    rw [get_property_of_props feature fkvs pkvs hf hp attr, hmiss]
    rfl
  · intro hmiss s h
    exact sceneOf_sun_azimuth feature fkvs pkvs hf hp hmiss s h

/-- Witness for C8 at a concrete feature whose `properties` mapping
holds only `platform`. -/
theorem c8_missing_property_marker_witness :
    (∀ attr,
      jlookup [("platform", JVal.str "LANDSAT_8")] attr = none →
      Scene._get_property c8feat attr = .ok .null) ∧
    (jlookup [("platform", JVal.str "LANDSAT_8")] "view:sun_azimuth" =
        none →
      ∀ s, sceneOf c8feat = .ok s → s.sun_azimuth = .null) :=
  c8_missing_property_marker c8feat _ [("platform", JVal.str "LANDSAT_8")]
    rfl rfl

end LandsatPystac
